import Mathlib

/-!
Shallow embedding of the OAuth token-lifecycle core of the spotify-mcp-server
repository (the `utils` module: `loadSpotifyConfig`, `saveSpotifyConfig`,
`getAccessToken`, `spotifyFetch`, `exchangeCodeForToken`, `refreshAccessToken`,
`authorizeSpotify`), together with theorems settling the frozen claims about it.

External effects (filesystem, clock, HTTP) are passed in explicitly:
the persisted file as an `Option String` / loaded record, the clock as a `Nat`
(`Date.now()` in epoch milliseconds), and each network call's outcome as an
`Except`-valued oracle argument.
-/

namespace SpotifyMcp

/-- The persisted credential record (`SpotifyConfig` interface in the source).
`expiresAt` is a Unix timestamp in milliseconds. -/
structure SpotifyConfig where
  clientId : String
  clientSecret : String
  redirectUri : String
  accessToken : Option String
  refreshToken : Option String
  expiresAt : Option Nat
  deriving Repr, DecidableEq

/-- A raw parsed JSON config, before the required-field check in
`loadSpotifyConfig`.  Fields are `Option String` (absent or present);
JavaScript truthiness makes the empty string count as absent. -/
structure RawConfig where
  clientId : Option String
  clientSecret : Option String
  redirectUri : Option String
  accessToken : Option String
  refreshToken : Option String
  expiresAt : Option Nat
  deriving Repr, DecidableEq

/-- JavaScript truthiness of an optional string: `undefined`/missing and `""`
are falsy, every other string is truthy. -/
def truthy : Option String → Bool
  | none => false
  | some s => s ≠ ""

/-- Error taxonomy of `loadSpotifyConfig`: the `CONFIG_FILE`-not-found throw
and the catch-all parse/required-field throw, each carrying the thrown
message. -/
inductive ConfigError where
  | ConfigMissing (msg : String)
  | ConfigInvalid (msg : String)
  deriving Repr, DecidableEq

/-- `loadSpotifyConfig()`.  `file` is the contents of `spotify-config.json`
(`none` when `fs.existsSync` is false); `parse` is the outcome of
`JSON.parse` on those contents (`Except` carries the parse error message).
Mirrors the source: a missing file throws the "configuration file not found"
error; inside the `try`, a parse failure or a falsy required field throws,
and the `catch` wraps either message in "Failed to parse Spotify
configuration: ...". -/
def loadSpotifyConfig (file : Option String)
    (parse : String → Except String RawConfig) : Except ConfigError SpotifyConfig :=
  match file with
  | none =>
      .error (.ConfigMissing
        "Spotify configuration file not found. Please create one with clientId, clientSecret, and redirectUri.")
  | some contents =>
      match parse contents with
      | .error e =>
          .error (.ConfigInvalid ("Failed to parse Spotify configuration: " ++ e))
      | .ok raw =>
          if truthy raw.clientId && truthy raw.clientSecret && truthy raw.redirectUri then
            .ok { clientId := raw.clientId.getD ""
                  clientSecret := raw.clientSecret.getD ""
                  redirectUri := raw.redirectUri.getD ""
                  accessToken := raw.accessToken
                  refreshToken := raw.refreshToken
                  expiresAt := raw.expiresAt }
          else
            .error (.ConfigInvalid
              ("Failed to parse Spotify configuration: " ++
               "Spotify configuration must include clientId, clientSecret, and redirectUri."))

/-- Parsed body of a successful refresh response, after the
`data.expires_in || 3600` defaulting in `refreshAccessToken`
(see `refreshExpiresIn`). -/
structure RefreshResp where
  access_token : String
  expires_in : Nat
  deriving Repr, DecidableEq

/-- `data.expires_in || 3600`: JavaScript `||` replaces the falsy values
`undefined` and `0` by `3600`. -/
def orDefault3600 : Option Nat → Nat
  | none => 3600
  | some 0 => 3600
  | some n => n

/-- Error taxonomy of `getAccessToken`: the "No access token available" throw
and the "Failed to refresh access token" throw. -/
inductive TokenError where
  | Unauthenticated
  | RefreshFailed
  deriving Repr, DecidableEq

/-- Result of one `getAccessToken()` call: the returned token or thrown error,
the persisted record afterwards, the module-level `cachedAccessToken`
afterwards, and how many refresh requests were sent to the token endpoint. -/
structure GetTokenResult where
  result : Except TokenError String
  stored : SpotifyConfig
  cached : Option String
  refreshCalls : Nat
  deriving Repr

/-- `getAccessToken()`.  `stored` is the record `loadSpotifyConfig` returned,
`cached` the module-level `cachedAccessToken` before the call, `now` is
`Date.now()`, and `refresh` the outcome of the single
`refreshAccessToken(config)` network call (error message on failure).
Mirrors the source: the guard `if (config.accessToken && config.refreshToken)`
is JavaScript truthiness (an absent or empty token falls through to the
"No access token available" throw with zero refresh requests); inside it,
`shouldRefresh` is `!config.expiresAt || config.expiresAt <= now`; a
successful refresh writes `access_token` and
`expiresAt = now + expires_in*1000` and saves, clears the cache, then caches
and returns `config.accessToken`; a failed refresh throws without saving. -/
def getAccessToken (stored : SpotifyConfig) (cached : Option String) (now : Nat)
    (refresh : Except String RefreshResp) : GetTokenResult :=
  if truthy stored.accessToken && truthy stored.refreshToken then
    let shouldRefresh :=
      match stored.expiresAt with
      | none => true
      | some e => e ≤ now
    if shouldRefresh then
      match refresh with
      | .ok tokens =>
          let stored' :=
            { stored with
              accessToken := some tokens.access_token
              expiresAt := some (now + tokens.expires_in * 1000) }
          { result := .ok tokens.access_token
            stored := stored'
            cached := some tokens.access_token
            refreshCalls := 1 }
      | .error _ =>
          { result := .error .RefreshFailed
            stored := stored
            cached := cached
            refreshCalls := 1 }
    else
      { result := .ok (stored.accessToken.getD "")
        stored := stored
        cached := stored.accessToken
        refreshCalls := 0 }
  else
    { result := .error .Unauthenticated
      stored := stored
      cached := cached
      refreshCalls := 0 }

/-! ### RequestGateway: `spotifyFetch` -/

/-- The HTTP methods `SpotifyFetchOptions` admits. -/
inductive Method where
  | GET | POST | PUT | DELETE
  deriving Repr, DecidableEq

/-- A query-parameter value (`string | number`); `undefined` entries are the
`none` of the surrounding `Option`.  Numbers are modelled as integers. -/
inductive ParamVal where
  | str (s : String)
  | num (n : Int)
  deriving Repr, DecidableEq

/-- `String(value)` applied to a parameter value. -/
def paramString : ParamVal → String
  | .str s => s
  | .num n => toString n

def SPOTIFY_API_BASE : String := "https://api.spotify.com/v1"

/-- Uppercase hexadecimal digit, as used by percent-encoding. -/
def hexDigitChar (n : Nat) : Char :=
  if n < 10 then Char.ofNat (48 + n) else Char.ofNat (55 + n)

/-- Bytes `URLSearchParams` serialization leaves unescaped:
ASCII alphanumerics and `*`, `-`, `.`, `_`. -/
def urlencodedSafe (b : UInt8) : Bool :=
  (48 ≤ b && b ≤ 57) || (65 ≤ b && b ≤ 90) || (97 ≤ b && b ≤ 122) ||
  b == 42 || b == 45 || b == 46 || b == 95

/-- One byte of `application/x-www-form-urlencoded` output: space becomes
`+`, safe bytes pass through, everything else is percent-encoded. -/
def urlencodeByte (b : UInt8) : String :=
  if b == 32 then "+"
  else if urlencodedSafe b then String.singleton (Char.ofNat b.toNat)
  else "%" ++ String.singleton (hexDigitChar (b.toNat / 16)) ++
       String.singleton (hexDigitChar (b.toNat % 16))

/-- `application/x-www-form-urlencoded` serialization of one component, as
`URLSearchParams.toString` performs on the UTF-8 bytes. -/
def urlencode (s : String) : String :=
  String.join (s.toUTF8.toList.map urlencodeByte)

/-- `Object.entries(params)` with `undefined` values skipped, each remaining
value passed through `String(...)` — the `searchParams.append` loop. -/
def definedParams (ps : List (String × Option ParamVal)) : List (String × String) :=
  ps.filterMap fun p => p.2.map fun v => (p.1, paramString v)

/-- One `key=value` pair of `URLSearchParams.toString()`. -/
def serializePair (p : String × String) : String :=
  urlencode p.1 ++ "=" ++ urlencode p.2

/-- Join serialized pairs with `&`, as `URLSearchParams.toString()` does. -/
def joinAmp : List String → String
  | [] => ""
  | [x] => x
  | x :: y :: xs => x ++ "&" ++ joinAmp (y :: xs)

/-- `searchParams.toString()` for a parameter record. -/
def queryString (ps : List (String × Option ParamVal)) : String :=
  joinAmp ((definedParams ps).map serializePair)

/-- The outgoing HTTP request `spotifyFetch` hands to `fetch`: full URL,
method, header list in insertion order, and the JSON-encoded body when one
was given. -/
structure SpotifyRequest where
  url : String
  method : Method
  headers : List (String × String)
  body : Option String
  deriving Repr, DecidableEq

/-- The request-construction half of `spotifyFetch` (everything before the
`fetch` call): URL with the encoded query string appended only when it is
nonempty, a bearer `Authorization` header always, and a JSON `Content-Type`
header exactly when a body is present.  `body` is the `JSON.stringify`
output of the body argument when one was given. -/
def spotifyRequest (endpoint : String) (method : Method)
    (params : Option (List (String × Option ParamVal))) (body : Option String)
    (accessToken : String) : SpotifyRequest :=
  let base := SPOTIFY_API_BASE ++ endpoint
  let url :=
    match params with
    | none => base
    | some ps =>
        let qs := queryString ps
        if qs = "" then base else base ++ "?" ++ qs
  { url := url
    method := method
    headers :=
      ("Authorization", "Bearer " ++ accessToken) ::
        (if body.isSome then [("Content-Type", "application/json")] else [])
    body := body }

/-- An HTTP response as `spotifyFetch` observes it: numeric status and the
full body text (`response.text()`). -/
structure HttpResponse where
  status : Nat
  text : String
  deriving Repr, DecidableEq

/-- `response.ok`: status in the inclusive range 200–299. -/
def HttpResponse.ok (r : HttpResponse) : Bool :=
  200 ≤ r.status && r.status ≤ 299

/-- The typed failure of `spotifyFetch`: the `Spotify API error` throw,
carrying the numeric status and the raw response body text. -/
inductive ApiError where
  | api (status : Nat) (text : String)
  deriving Repr, DecidableEq

/-- The response-handling half of `spotifyFetch`: non-ok status throws
`ApiError` with status and raw text; an empty body returns `undefined`
(`none`); otherwise `JSON.parse` (the `decode` argument, `none` on a parse
throw) yields the value, with parse failure swallowed into `undefined`. -/
def spotifyFetchResult {T : Type} (decode : String → Option T)
    (resp : HttpResponse) : Except ApiError (Option T) :=
  if resp.ok then
    if resp.text = "" then .ok none
    else
      match decode resp.text with
      | some v => .ok (some v)
      | none => .ok none
  else
    .error (.api resp.status resp.text)

/-! ### AuthorizationFlow: `authorizeSpotify` and the token endpoints -/

/-- Raw JSON body of a successful token-exchange response, before the
`expires_in || 3600` defaulting. -/
structure RawTokenData where
  access_token : String
  refresh_token : String
  expires_in : Option Nat
  deriving Repr, DecidableEq

/-- Massaged result of `exchangeCodeForToken`. -/
structure ExchangeResp where
  access_token : String
  refresh_token : String
  expires_in : Nat
  deriving Repr, DecidableEq

/-- `exchangeCodeForToken`: a non-ok token-endpoint response (the `raw`
oracle's error, carrying the response text) throws "Failed to exchange code
for token"; a successful response is returned with
`expires_in: data.expires_in || 3600`. -/
def exchangeCodeForToken (raw : Except String RawTokenData) :
    Except String ExchangeResp :=
  match raw with
  | .error e => .error ("Failed to exchange code for token: " ++ e)
  | .ok d =>
      .ok { access_token := d.access_token
            refresh_token := d.refresh_token
            expires_in := orDefault3600 d.expires_in }

/-- Raw JSON body of a successful refresh response. -/
structure RawRefreshData where
  access_token : String
  expires_in : Option Nat
  deriving Repr, DecidableEq

/-- `refreshAccessToken`: throws "No refresh token available" when the
record has none; a non-ok token-endpoint response throws "Failed to refresh
access token"; a successful one is returned with
`expires_in: data.expires_in || 3600`. -/
def refreshAccessToken (refreshToken : Option String)
    (raw : Except String RawRefreshData) : Except String RefreshResp :=
  match refreshToken with
  | none => .error "No refresh token available"
  | some _ =>
      match raw with
      | .error e => .error ("Failed to refresh access token: " ++ e)
      | .ok d =>
          .ok { access_token := d.access_token
                expires_in := orDefault3600 d.expires_in }

/-- Error taxonomy of the authorization flow's reject sites. -/
inductive FlowError where
  | AuthorizationDenied (err : String)
  | StateMismatch
  | MissingCode
  | TokenExchangeFailed (msg : String)
  deriving Repr, DecidableEq

/-- One HTTP request hitting the local callback listener, already parsed:
whether `reqUrl.pathname` equals the registered callback path, and the
`code`, `state` and `error` query parameters (`searchParams.get`, `none`
when absent). -/
structure CallbackRequest where
  pathMatchesCallback : Bool
  code : Option String
  state : Option String
  error : Option String
  deriving Repr, DecidableEq

/-- The ordered observable actions of one callback-handler invocation:
writing a response page, persisting the credential record
(`saveSpotifyConfig`), closing the listener (`server.close()`), and
settling the flow promise (`resolve`/`reject`). -/
inductive FlowEvent where
  | respond (html : String)
  | persist (record : SpotifyConfig)
  | closeListener
  | settle (outcome : Except FlowError Unit)
  deriving Repr

def authFailedPage : String :=
  "<html><body><h1>Authentication Failed</h1><p>Please close this window and try again.</p></body></html>"

def stateFailedPage : String :=
  "<html><body><h1>Authentication Failed</h1><p>State verification failed. Please close this window and try again.</p></body></html>"

def noCodePage : String :=
  "<html><body><h1>Authentication Failed</h1><p>No authorization code received. Please close this window and try again.</p></body></html>"

def exchangeFailedPage : String :=
  "<html><body><h1>Authentication Failed</h1><p>Failed to exchange authorization code for tokens. Please close this window and try again.</p></body></html>"

def successPage : String :=
  "<html><body><h1>Authentication Successful!</h1><p>You can now close this window and return to the application.</p></body></html>"

/-- The callback handler of `authorizeSpotify`, as the ordered list of
actions it performs on one request.  `generatedState` is the random state of
this flow, `config` the record loaded at flow start, `now` is `Date.now()`
at the callback, and `exchange` gives the token endpoint's response to the
authorization-code grant.  Mirrors the source's branch order: `error` first
(JavaScript truthiness), then `returnedState !== state`, then the falsy-code
check, then the exchange; requests to other paths get a 404 response and
touch nothing (the missing-`req.url` guard likewise only writes a
response). -/
def handleCallback (generatedState : String) (config : SpotifyConfig) (now : Nat)
    (exchange : String → Except String RawTokenData) (req : CallbackRequest) :
    List FlowEvent :=
  if req.pathMatchesCallback then
    if truthy req.error then
      [.respond authFailedPage, .closeListener,
       .settle (.error (.AuthorizationDenied (req.error.getD "")))]
    else if req.state ≠ some generatedState then
      [.respond stateFailedPage, .closeListener, .settle (.error .StateMismatch)]
    else if !truthy req.code then
      [.respond noCodePage, .closeListener, .settle (.error .MissingCode)]
    else
      match exchangeCodeForToken (exchange (req.code.getD "")) with
      | .ok tokens =>
          let config' :=
            { config with
              accessToken := some tokens.access_token
              refreshToken := some tokens.refresh_token
              expiresAt := some (now + tokens.expires_in * 1000) }
          [.persist config', .respond successPage, .closeListener, .settle (.ok ())]
      | .error e =>
          [.respond exchangeFailedPage, .closeListener,
           .settle (.error (.TokenExchangeFailed e))]
  else
    [.respond ""]

/-- Observable state of one flow run: whether `server.close()` has been
called, the promise's settled outcome (a promise settles at most once), the
persisted credential record, and how many `resolve`/`reject` calls were
issued in total. -/
structure FlowRunState where
  listenerClosed : Bool
  settledOutcome : Option (Except FlowError Unit)
  stored : SpotifyConfig
  settleEmits : Nat
  deriving Repr

def applyEvent (s : FlowRunState) : FlowEvent → FlowRunState
  | .respond _ => s
  | .persist c => { s with stored := c }
  | .closeListener => { s with listenerClosed := true }
  | .settle o =>
      { s with
        settledOutcome := if s.settledOutcome.isNone then some o else s.settledOutcome
        settleEmits := s.settleEmits + 1 }

def applyEvents (s : FlowRunState) (evs : List FlowEvent) : FlowRunState :=
  evs.foldl applyEvent s

/-- Sequential processing of callback requests by the flow's listener: once
the listener is closed, no further request is served. -/
def runRequests (generatedState : String) (config : SpotifyConfig) (now : Nat)
    (exchange : String → Except String RawTokenData) :
    List CallbackRequest → FlowRunState → FlowRunState
  | [], s => s
  | r :: rs, s =>
      if s.listenerClosed then
        runRequests generatedState config now exchange rs s
      else
        runRequests generatedState config now exchange rs
          (applyEvents s (handleCallback generatedState config now exchange r))

/-- One full `authorizeSpotify` run observed on a list of incoming callback
requests, starting from an open listener, an unsettled promise and the
loaded record. -/
def authFlowRun (generatedState : String) (config : SpotifyConfig) (now : Nat)
    (exchange : String → Except String RawTokenData)
    (reqs : List CallbackRequest) : FlowRunState :=
  runRequests generatedState config now exchange reqs
    { listenerClosed := false
      settledOutcome := none
      stored := config
      settleEmits := 0 }

/-- `true` iff every `settle` event in the list is preceded by a
`closeListener` event. -/
def settleAfterClose : Bool → List FlowEvent → Bool
  | _, [] => true
  | _, .closeListener :: evs => settleAfterClose true evs
  | closed, .settle _ :: evs => closed && settleAfterClose closed evs
  | closed, _ :: evs => settleAfterClose closed evs

/-! ## Theorems -/

/-- C1: for a persisted record containing both an `accessToken` and a
`refreshToken` (nonempty, as the source's truthiness guard requires),
`getAccessToken` attempts exactly one refresh when `expiresAt` is absent or
not after `now`, and with `expiresAt` strictly in the future it performs no
refresh, returns the stored token, leaves the record unchanged, and an
immediately repeated call likewise performs zero refresh requests. -/
theorem getAccessToken_refresh_iff_stale
    (stored : SpotifyConfig) (cached : Option String) (now : Nat)
    (refresh : Except String RefreshResp) (tok rtok : String)
    (hA : stored.accessToken = some tok) (hR : stored.refreshToken = some rtok)
    (htok : tok ≠ "") (hrtok : rtok ≠ "") :
    ((stored.expiresAt = none ∨ ∃ e, stored.expiresAt = some e ∧ e ≤ now) →
      (getAccessToken stored cached now refresh).refreshCalls = 1) ∧
    (∀ e, stored.expiresAt = some e → now < e →
      (getAccessToken stored cached now refresh).refreshCalls = 0 ∧
      (getAccessToken stored cached now refresh).result = .ok tok ∧
      (getAccessToken stored cached now refresh).stored = stored ∧
      ∀ refresh2 : Except String RefreshResp,
        (getAccessToken (getAccessToken stored cached now refresh).stored
          (getAccessToken stored cached now refresh).cached now refresh2).refreshCalls
          = 0) := by
  constructor
  · intro hst
    rcases hst with hE | ⟨e, hE, hle⟩
    · cases refresh <;> simp [getAccessToken, truthy, hA, hR, htok, hrtok, hE]
    · cases refresh <;> simp [getAccessToken, truthy, hA, hR, htok, hrtok, hE, hle]
  · intro e hE hlt
    have hnot : ¬ e ≤ now := Nat.not_le.mpr hlt
    refine ⟨?_, ?_, ?_, ?_⟩ <;>
      simp [getAccessToken, truthy, hA, hR, htok, hrtok, hE, hnot]

/-- Witness for C1 at a concrete record: fresh token at `now = 500`,
`expiresAt = 1000`. -/
theorem getAccessToken_refresh_iff_stale_witness :
    (getAccessToken
        { clientId := "i", clientSecret := "s", redirectUri := "r",
          accessToken := some "tokA", refreshToken := some "rtokA",
          expiresAt := some 1000 }
        none 500 (.error "down")).refreshCalls = 0 ∧
    (getAccessToken
        { clientId := "i", clientSecret := "s", redirectUri := "r",
          accessToken := some "tokA", refreshToken := some "rtokA",
          expiresAt := none }
        none 500 (.error "down")).refreshCalls = 1 := by
  have h1 := getAccessToken_refresh_iff_stale
    { clientId := "i", clientSecret := "s", redirectUri := "r",
      accessToken := some "tokA", refreshToken := some "rtokA",
      expiresAt := some 1000 }
    none 500 (.error "down") "tokA" "rtokA" rfl rfl (by decide) (by decide)
  have h2 := getAccessToken_refresh_iff_stale
    { clientId := "i", clientSecret := "s", redirectUri := "r",
      accessToken := some "tokA", refreshToken := some "rtokA",
      expiresAt := none }
    none 500 (.error "down") "tokA" "rtokA" rfl rfl (by decide) (by decide)
  exact ⟨(h1.2 1000 rfl (by decide)).1, h2.1 (Or.inl rfl)⟩

/-- C3: with both tokens present (nonempty, as the source's truthiness guard
requires) and a stale `expiresAt`, a failing refresh makes `getAccessToken`
fail with `RefreshFailed` while the persisted record is left byte-for-byte
unchanged; in particular the stale `accessToken` and the `refreshToken` are
still stored. -/
theorem getAccessToken_refreshFailure_atomic
    (stored : SpotifyConfig) (cached : Option String) (now : Nat) (msg : String)
    (tok rtok : String)
    (hA : stored.accessToken = some tok) (hR : stored.refreshToken = some rtok)
    (htok : tok ≠ "") (hrtok : rtok ≠ "")
    (hstale : stored.expiresAt = none ∨ ∃ e, stored.expiresAt = some e ∧ e ≤ now) :
    (getAccessToken stored cached now (.error msg)).result = .error .RefreshFailed ∧
    (getAccessToken stored cached now (.error msg)).stored = stored ∧
    (getAccessToken stored cached now (.error msg)).stored.accessToken = some tok ∧
    (getAccessToken stored cached now (.error msg)).stored.refreshToken = some rtok := by
  rcases hstale with hE | ⟨e, hE, hle⟩
  · refine ⟨?_, ?_, ?_, ?_⟩ <;>
      simp [getAccessToken, truthy, hA, hR, htok, hrtok, hE]
  · refine ⟨?_, ?_, ?_, ?_⟩ <;>
      simp [getAccessToken, truthy, hA, hR, htok, hrtok, hE, hle]

/-- Witness for C3 at a concrete stale record and an HTTP 400 refresh
outcome. -/
theorem getAccessToken_refreshFailure_atomic_witness :
    (getAccessToken
        { clientId := "i", clientSecret := "s", redirectUri := "r",
          accessToken := some "stale", refreshToken := some "rt",
          expiresAt := some 100 }
        none 100 (.error "HTTP 400")).result = .error .RefreshFailed ∧
    (getAccessToken
        { clientId := "i", clientSecret := "s", redirectUri := "r",
          accessToken := some "stale", refreshToken := some "rt",
          expiresAt := some 100 }
        none 100 (.error "HTTP 400")).stored.accessToken = some "stale" := by
  have h := getAccessToken_refreshFailure_atomic
    { clientId := "i", clientSecret := "s", redirectUri := "r",
      accessToken := some "stale", refreshToken := some "rt",
      expiresAt := some 100 }
    none 100 "HTTP 400" "stale" "rt" rfl rfl (by decide) (by decide)
    (Or.inr ⟨100, rfl, by decide⟩)
  exact ⟨h.1, h.2.2.1⟩

/-- C10: the module-level `cachedAccessToken` is write-only — for any two
initial cache values, `getAccessToken` on the same record, clock and refresh
outcome returns the same result, performs the same number of refresh
requests, and leaves the same persisted record. -/
theorem getAccessToken_cache_writeOnly
    (stored : SpotifyConfig) (c1 c2 : Option String) (now : Nat)
    (refresh : Except String RefreshResp) :
    (getAccessToken stored c1 now refresh).result
      = (getAccessToken stored c2 now refresh).result ∧
    (getAccessToken stored c1 now refresh).refreshCalls
      = (getAccessToken stored c2 now refresh).refreshCalls ∧
    (getAccessToken stored c1 now refresh).stored
      = (getAccessToken stored c2 now refresh).stored := by
  by_cases hG : (truthy stored.accessToken && truthy stored.refreshToken) = true
  · cases hE : stored.expiresAt with
    | none => cases refresh <;> simp [getAccessToken, hG, hE]
    | some e =>
        by_cases hle : e ≤ now
        · cases refresh <;> simp [getAccessToken, hG, hE, hle]
        · simp [getAccessToken, hG, hE, hle]
  · simp [getAccessToken, hG]

/-- C2: `spotifyFetch` response handling — a non-2xx status fails with
`ApiError` carrying the numeric status and the raw body text; a 2xx status
with an empty body, or one whose body fails to JSON-decode, yields the
absent result; otherwise the JSON-decoded body is returned. -/
theorem spotifyFetch_response_semantics {T : Type} (decode : String → Option T)
    (resp : HttpResponse) :
    (¬ (200 ≤ resp.status ∧ resp.status ≤ 299) →
      spotifyFetchResult decode resp = .error (.api resp.status resp.text)) ∧
    (200 ≤ resp.status → resp.status ≤ 299 →
      ((resp.text = "" → spotifyFetchResult decode resp = .ok none) ∧
       (decode resp.text = none → spotifyFetchResult decode resp = .ok none) ∧
       (∀ v, decode resp.text = some v → resp.text ≠ "" →
          spotifyFetchResult decode resp = .ok (some v)))) := by
  constructor
  · intro h
    have hok : resp.ok = false := by
      simp [HttpResponse.ok]
      omega
    simp [spotifyFetchResult, hok]
  · intro h1 h2
    have hok : resp.ok = true := by
      simp [HttpResponse.ok]
      omega
    refine ⟨fun ht => by simp [spotifyFetchResult, hok, ht], fun hd => ?_,
      fun v hv ht => by simp [spotifyFetchResult, hok, ht, hv]⟩
    by_cases ht : resp.text = ""
    · simp [spotifyFetchResult, hok, ht]
    · simp [spotifyFetchResult, hok, ht, hd]

/-- Witness for C2: a 404 with body text fails typed, a 204 with empty body
resolves to the absent result, and a 200 with decodable body returns it. -/
theorem spotifyFetch_response_semantics_witness :
    spotifyFetchResult (T := Nat) (fun _ => none) ⟨404, "not found"⟩
      = .error (.api 404 "not found") ∧
    spotifyFetchResult (T := Nat) (fun _ => none) ⟨204, ""⟩ = .ok none ∧
    spotifyFetchResult (T := Nat) (fun _ => some 7) ⟨200, "7"⟩ = .ok (some 7) := by
  refine ⟨(spotifyFetch_response_semantics (fun _ => none) ⟨404, "not found"⟩).1
      (by decide), ?_, ?_⟩
  · exact ((spotifyFetch_response_semantics (fun _ => none) ⟨204, ""⟩).2
      (by decide) (by decide)).1 rfl
  · exact ((spotifyFetch_response_semantics (fun _ => some 7) ⟨200, "7"⟩).2
      (by decide) (by decide)).2.2 7 rfl (by decide)

/-- C7 counterexample: a record that parses with all three required fields
present (so none is missing) but `clientId` empty is rejected with
`ConfigInvalid` by the truthiness check, where the claim's "otherwise it
returns the parsed record" demands success. -/
theorem loadSpotifyConfig_emptyField_counterexample :
    loadSpotifyConfig (some "cfg")
      (fun _ => .ok
        { clientId := some "", clientSecret := some "sec",
          redirectUri := some "http://127.0.0.1:8888/callback",
          accessToken := none, refreshToken := none, expiresAt := none })
      = .error (.ConfigInvalid
          ("Failed to parse Spotify configuration: " ++
           "Spotify configuration must include clientId, clientSecret, and redirectUri.")) := by
  rfl

/-- C7 (amended): `load()` fails with `ConfigMissing` exactly when no record
exists; a parse failure surfaces as `ConfigInvalid` with the parse error
message attached; a record that parses but has a required field missing or
empty (JavaScript-falsy) fails with `ConfigInvalid`; otherwise the parsed
record is returned. -/
theorem loadSpotifyConfig_taxonomy
    (file : Option String) (parse : String → Except String RawConfig) :
    ((∃ m, loadSpotifyConfig file parse = .error (.ConfigMissing m)) ↔ file = none) ∧
    (∀ c e, file = some c → parse c = .error e →
      loadSpotifyConfig file parse
        = .error (.ConfigInvalid ("Failed to parse Spotify configuration: " ++ e))) ∧
    (∀ c raw, file = some c → parse c = .ok raw →
      (truthy raw.clientId = false ∨ truthy raw.clientSecret = false ∨
        truthy raw.redirectUri = false) →
      ∃ m, loadSpotifyConfig file parse = .error (.ConfigInvalid m)) ∧
    (∀ c raw, file = some c → parse c = .ok raw →
      truthy raw.clientId = true → truthy raw.clientSecret = true →
      truthy raw.redirectUri = true →
      loadSpotifyConfig file parse = .ok
        { clientId := raw.clientId.getD "", clientSecret := raw.clientSecret.getD "",
          redirectUri := raw.redirectUri.getD "", accessToken := raw.accessToken,
          refreshToken := raw.refreshToken, expiresAt := raw.expiresAt }) := by
  refine ⟨?_, ?_, ?_, ?_⟩
  · constructor
    · rintro ⟨m, hm⟩
      cases file with
      | none => rfl
      | some c =>
          exfalso
          simp only [loadSpotifyConfig] at hm
          cases hp : parse c with
          | error e => rw [hp] at hm; simp at hm
          | ok raw =>
              rw [hp] at hm
              split at hm
              · simp at hm
              · split at hm <;> simp at hm
    · intro h
      subst h
      exact ⟨_, rfl⟩
  · intro c e hf hp
    subst hf
    simp [loadSpotifyConfig, hp]
  · intro c raw hf hp hmiss
    subst hf
    have hand : (truthy raw.clientId && truthy raw.clientSecret &&
        truthy raw.redirectUri) = false := by
      rcases hmiss with h | h | h <;> simp [h]
    simp [loadSpotifyConfig, hp, hand]
  · intro c raw hf hp h1 h2 h3
    subst hf
    simp [loadSpotifyConfig, hp, h1, h2, h3]

/-- Witness for the amended C7: a parsed record with all three required
fields nonempty is returned as-is. -/
theorem loadSpotifyConfig_taxonomy_witness :
    loadSpotifyConfig (some "cfg")
      (fun _ => .ok
        { clientId := some "id", clientSecret := some "sec",
          redirectUri := some "http://127.0.0.1:8888/callback",
          accessToken := some "at", refreshToken := some "rt",
          expiresAt := some 12 })
      = .ok
        { clientId := "id", clientSecret := "sec",
          redirectUri := "http://127.0.0.1:8888/callback",
          accessToken := some "at", refreshToken := some "rt",
          expiresAt := some 12 } := by
  exact (loadSpotifyConfig_taxonomy (some "cfg")
      (fun _ => .ok
        { clientId := some "id", clientSecret := some "sec",
          redirectUri := some "http://127.0.0.1:8888/callback",
          accessToken := some "at", refreshToken := some "rt",
          expiresAt := some 12 })).2.2.2 "cfg" _ rfl rfl (by decide) (by decide) (by decide)

/-- Dropping the `undefined`-valued entries leaves the defined parameter
list unchanged. -/
theorem definedParams_filter (ps : List (String × Option ParamVal)) :
    definedParams (ps.filter fun p => p.2.isSome) = definedParams ps := by
  induction ps with
  | nil => rfl
  | cons p ps ih =>
      rcases p with ⟨k, v⟩
      cases v <;> simp [definedParams, List.filter_cons] at ih ⊢ <;>
        simpa [definedParams] using ih

/-- A nonempty string has positive length. -/
theorem length_pos_of_ne_empty (x : String) (hx : x ≠ "") : 0 < x.length := by
  cases x with
  | mk data =>
      cases data with
      | nil => exact absurd rfl hx
      | cons a l => simp [String.length]

/-- A serialized `key=value` pair is never the empty string. -/
theorem serializePair_ne_empty (p : String × String) : serializePair p ≠ "" := by
  intro h
  have hlen := congrArg String.length h
  rw [show serializePair p = urlencode p.1 ++ "=" ++ urlencode p.2 from rfl] at hlen
  rw [String.length_append, String.length_append] at hlen
  have h1 : "=".length = 1 := rfl
  have h0 : ("" : String).length = 0 := rfl
  omega

/-- Joining a nonempty-string head with `&` never yields the empty string. -/
theorem joinAmp_ne_empty (x : String) (l : List String) (hx : x ≠ "") :
    joinAmp (x :: l) ≠ "" := by
  cases l with
  | nil => simpa [joinAmp] using hx
  | cons y ys =>
      intro h
      have hlen := congrArg String.length h
      rw [show joinAmp (x :: y :: ys) = x ++ "&" ++ joinAmp (y :: ys) from rfl] at hlen
      rw [String.length_append, String.length_append] at hlen
      have h1 : "&".length = 1 := rfl
      have h0 : ("" : String).length = 0 := rfl
      omega

/-- C8: request construction in `spotifyFetch` — `undefined`-valued query
parameters are omitted; the encoded query string is appended exactly when at
least one defined parameter exists; a bearer `Authorization` header is
always attached; a JSON `Content-Type` header is attached iff a body is
present. -/
theorem spotifyRequest_construction
    (endpoint : String) (method : Method) (ps : List (String × Option ParamVal))
    (body : Option String) (tok : String) :
    spotifyRequest endpoint method (some ps) body tok
      = spotifyRequest endpoint method (some (ps.filter fun p => p.2.isSome)) body tok ∧
    (spotifyRequest endpoint method none body tok).url = SPOTIFY_API_BASE ++ endpoint ∧
    (definedParams ps = [] →
      (spotifyRequest endpoint method (some ps) body tok).url
        = SPOTIFY_API_BASE ++ endpoint) ∧
    (definedParams ps ≠ [] →
      queryString ps ≠ "" ∧
      (spotifyRequest endpoint method (some ps) body tok).url
        = SPOTIFY_API_BASE ++ endpoint ++ "?" ++ queryString ps) ∧
    ("Authorization", "Bearer " ++ tok)
      ∈ (spotifyRequest endpoint method (some ps) body tok).headers ∧
    ((("Content-Type", "application/json")
        ∈ (spotifyRequest endpoint method (some ps) body tok).headers)
      ↔ body.isSome = true) := by
  refine ⟨?_, rfl, ?_, ?_, ?_, ?_⟩
  · simp [spotifyRequest, queryString, definedParams_filter]
  · intro hdp
    simp [spotifyRequest, queryString, hdp, joinAmp]
  · intro hdp
    obtain ⟨d, rest, hcons⟩ : ∃ d rest, definedParams ps = d :: rest := by
      cases hd : definedParams ps with
      | nil => exact absurd hd hdp
      | cons d rest => exact ⟨d, rest, rfl⟩
    have hqs : queryString ps ≠ "" := by
      rw [queryString, hcons, List.map_cons]
      exact joinAmp_ne_empty _ _ (serializePair_ne_empty d)
    exact ⟨hqs, by simp [spotifyRequest, hqs]⟩
  · simp [spotifyRequest]
  · cases body <;> simp [spotifyRequest]

/-- Witness for C8 at a concrete parameter list with one defined and one
`undefined` entry. -/
theorem spotifyRequest_construction_witness :
    (spotifyRequest "/e" .GET
        (some [("a", some (.str "x")), ("b", none)]) none "T").url
      = SPOTIFY_API_BASE ++ "/e" ++ "?" ++
          queryString [("a", some (.str "x")), ("b", none)] ∧
    (spotifyRequest "/e" .GET
        (some [("b", none)]) none "T").url = SPOTIFY_API_BASE ++ "/e" := by
  refine ⟨((spotifyRequest_construction "/e" .GET
      [("a", some (.str "x")), ("b", none)] none "T").2.2.2.1 (by decide)).2, ?_⟩
  exact (spotifyRequest_construction "/e" .GET [("b", none)] none "T").2.2.1 rfl

/-- The `expires_in || 3600` default is always positive. -/
theorem orDefault3600_pos (o : Option Nat) : 0 < orDefault3600 o := by
  cases o with
  | none => simp [orDefault3600]
  | some n =>
      cases n with
      | zero => simp [orDefault3600]
      | succ m => simp [orDefault3600]

/-- A successful code exchange always reports a positive `expires_in`. -/
theorem exchangeCodeForToken_expires_pos (raw : Except String RawTokenData)
    (t : ExchangeResp) (h : exchangeCodeForToken raw = .ok t) :
    0 < t.expires_in := by
  cases raw with
  | error e => simp [exchangeCodeForToken] at h
  | ok d =>
      simp only [exchangeCodeForToken] at h
      injection h with h2
      rw [← h2]
      exact orDefault3600_pos _

/-- A request to a path other than the callback path leaves the flow state
untouched. -/
theorem applyEvents_nonMatching (g : String) (c : SpotifyConfig) (now : Nat)
    (ex : String → Except String RawTokenData) (req : CallbackRequest)
    (s : FlowRunState) (h : req.pathMatchesCallback = false) :
    applyEvents s (handleCallback g c now ex req) = s := by
  simp [handleCallback, h, applyEvents, applyEvent]

/-- Effect of one callback-path request on an open, unsettled flow: the
listener gets closed, exactly one settle is emitted, and the persisted
record either becomes a freshly exchanged token record (success, with
`expiresAt` strictly beyond `now`) or is untouched (every failure). -/
theorem handleCallback_step (g : String) (c : SpotifyConfig) (now : Nat)
    (ex : String → Except String RawTokenData) (req : CallbackRequest)
    (s : FlowRunState) (hnone : s.settledOutcome = none)
    (hmatch : req.pathMatchesCallback = true) :
    (applyEvents s (handleCallback g c now ex req)).listenerClosed = true ∧
    (applyEvents s (handleCallback g c now ex req)).settleEmits = s.settleEmits + 1 ∧
    ∃ o, (applyEvents s (handleCallback g c now ex req)).settledOutcome = some o ∧
      (o = .ok () →
        (applyEvents s (handleCallback g c now ex req)).stored.accessToken.isSome = true ∧
        (applyEvents s (handleCallback g c now ex req)).stored.refreshToken.isSome = true ∧
        ∃ e, (applyEvents s (handleCallback g c now ex req)).stored.expiresAt = some e ∧
          now < e) ∧
      (∀ err, o = .error err →
        (applyEvents s (handleCallback g c now ex req)).stored = s.stored) := by
  by_cases herr : truthy req.error = true
  · refine ⟨?_, ?_, .error (.AuthorizationDenied (req.error.getD "")), ?_, ?_, ?_⟩ <;>
      simp [handleCallback, hmatch, herr, applyEvents, applyEvent, hnone]
  · by_cases hstate : req.state = some g
    · by_cases hcode : truthy req.code = true
      · cases hexch : exchangeCodeForToken (ex (req.code.getD "")) with
        | ok tokens =>
            have hpos := exchangeCodeForToken_expires_pos _ _ hexch
            refine ⟨?_, ?_, .ok (), ?_, ?_, ?_⟩ <;>
              simp [handleCallback, hmatch, herr, hstate, hcode, hexch,
                applyEvents, applyEvent, hnone]
            have : 0 < tokens.expires_in * 1000 := by positivity
            omega
        | error e =>
            refine ⟨?_, ?_, .error (.TokenExchangeFailed e), ?_, ?_, ?_⟩ <;>
              simp [handleCallback, hmatch, herr, hstate, hcode, hexch,
                applyEvents, applyEvent, hnone]
      · refine ⟨?_, ?_, .error .MissingCode, ?_, ?_, ?_⟩ <;>
          simp [handleCallback, hmatch, herr, hstate, hcode,
            applyEvents, applyEvent, hnone]
    · refine ⟨?_, ?_, .error .StateMismatch, ?_, ?_, ?_⟩ <;>
        simp [handleCallback, hmatch, herr, hstate, applyEvents, applyEvent, hnone]

/-- A closed listener serves no further request. -/
theorem runRequests_closed (g : String) (c : SpotifyConfig) (now : Nat)
    (ex : String → Except String RawTokenData) (reqs : List CallbackRequest)
    (s : FlowRunState) (h : s.listenerClosed = true) :
    runRequests g c now ex reqs s = s := by
  induction reqs with
  | nil => rfl
  | cons r rs ih => simp [runRequests, h, ih]

/-- Run-level behavior of the flow from an open, unsettled start: at most
one settle is ever emitted; a settle happens exactly when some request hits
the callback path; the listener is closed whenever the flow has settled; a
successful settle leaves a complete fresh token record; a failed settle
leaves the record untouched. -/
theorem runRequests_spec (g : String) (c : SpotifyConfig) (now : Nat)
    (ex : String → Except String RawTokenData) (reqs : List CallbackRequest)
    (s : FlowRunState) (hopen : s.listenerClosed = false)
    (hnone : s.settledOutcome = none) (hzero : s.settleEmits = 0) :
    (runRequests g c now ex reqs s).settleEmits ≤ 1 ∧
    ((runRequests g c now ex reqs s).settleEmits = 1 ↔
      ∃ r ∈ reqs, r.pathMatchesCallback = true) ∧
    ((runRequests g c now ex reqs s).settledOutcome.isSome = true ↔
      ∃ r ∈ reqs, r.pathMatchesCallback = true) ∧
    ((runRequests g c now ex reqs s).settledOutcome.isSome = true →
      (runRequests g c now ex reqs s).listenerClosed = true) ∧
    ((runRequests g c now ex reqs s).settledOutcome = some (.ok ()) →
      (runRequests g c now ex reqs s).stored.accessToken.isSome = true ∧
      (runRequests g c now ex reqs s).stored.refreshToken.isSome = true ∧
      ∃ e, (runRequests g c now ex reqs s).stored.expiresAt = some e ∧ now < e) ∧
    (∀ err, (runRequests g c now ex reqs s).settledOutcome = some (.error err) →
      (runRequests g c now ex reqs s).stored = s.stored) := by
  induction reqs generalizing s with
  | nil => simp [runRequests, hnone, hzero]
  | cons r rs ih =>
      by_cases hmatch : r.pathMatchesCallback = true
      · obtain ⟨hclosed, hemits, o, hsome, hokCase, herrCase⟩ :=
          handleCallback_step g c now ex r s hnone hmatch
        have hrun : runRequests g c now ex (r :: rs) s =
            applyEvents s (handleCallback g c now ex r) := by
          simp only [runRequests, hopen, if_neg, Bool.false_eq_true, ite_false]
          exact runRequests_closed g c now ex rs _ hclosed
        rw [hrun]
        refine ⟨?_, ?_, ?_, fun _ => hclosed, ?_, ?_⟩
        · omega
        · exact ⟨fun _ => ⟨r, List.mem_cons_self r rs, hmatch⟩, fun _ => by omega⟩
        · rw [hsome]
          exact ⟨fun _ => ⟨r, List.mem_cons_self r rs, hmatch⟩, fun _ => rfl⟩
        · intro hok
          rw [hsome] at hok
          injection hok with hok
          exact hokCase hok
        · intro err herr
          rw [hsome] at herr
          injection herr with herr
          exact herrCase err herr
      · have hs' : applyEvents s (handleCallback g c now ex r) = s :=
          applyEvents_nonMatching g c now ex r s (by simpa using hmatch)
        have hrun : runRequests g c now ex (r :: rs) s = runRequests g c now ex rs s := by
          simp [runRequests, hopen, hs']
        rw [hrun]
        have h := ih s hopen hnone hzero
        refine ⟨h.1, ?_, ?_, h.2.2.2.1, h.2.2.2.2.1, h.2.2.2.2.2⟩
        · rw [h.2.1]
          simp [hmatch]
        · rw [h.2.2.1]
          simp [hmatch]

/-- One callback-handler invocation either leaves the persisted record
untouched or persists a record carrying both tokens. -/
theorem handleCallback_stored (g : String) (c : SpotifyConfig) (now : Nat)
    (ex : String → Except String RawTokenData) (req : CallbackRequest)
    (s : FlowRunState) :
    (applyEvents s (handleCallback g c now ex req)).stored = s.stored ∨
    ((applyEvents s (handleCallback g c now ex req)).stored.accessToken.isSome = true ∧
     (applyEvents s (handleCallback g c now ex req)).stored.refreshToken.isSome = true) := by
  by_cases hmatch : req.pathMatchesCallback = true
  · by_cases herr : truthy req.error = true
    · left
      simp [handleCallback, hmatch, herr, applyEvents, applyEvent]
    · by_cases hstate : req.state = some g
      · by_cases hcode : truthy req.code = true
        · cases hexch : exchangeCodeForToken (ex (req.code.getD "")) with
          | ok tokens =>
              right
              simp [handleCallback, hmatch, herr, hstate, hcode, hexch,
                applyEvents, applyEvent]
          | error e =>
              left
              simp [handleCallback, hmatch, herr, hstate, hcode, hexch,
                applyEvents, applyEvent]
        · left
          simp [handleCallback, hmatch, herr, hstate, hcode, applyEvents, applyEvent]
      · left
        simp [handleCallback, hmatch, herr, hstate, applyEvents, applyEvent]
  · left
    simp [handleCallback, hmatch, applyEvents, applyEvent]

/-- Run-level record preservation: the flow either leaves the persisted
record untouched or has persisted a record carrying both tokens. -/
theorem runRequests_stored (g : String) (c : SpotifyConfig) (now : Nat)
    (ex : String → Except String RawTokenData) (reqs : List CallbackRequest)
    (s : FlowRunState) :
    (runRequests g c now ex reqs s).stored = s.stored ∨
    ((runRequests g c now ex reqs s).stored.accessToken.isSome = true ∧
     (runRequests g c now ex reqs s).stored.refreshToken.isSome = true) := by
  induction reqs generalizing s with
  | nil => left; rfl
  | cons r rs ih =>
      by_cases hclosed : s.listenerClosed = true
      · have hrun : runRequests g c now ex (r :: rs) s = runRequests g c now ex rs s := by
          simp [runRequests, hclosed]
        rw [hrun]
        exact ih s
      · have hrun : runRequests g c now ex (r :: rs) s =
            runRequests g c now ex rs (applyEvents s (handleCallback g c now ex r)) := by
          simp [runRequests, hclosed]
        rw [hrun]
        rcases ih (applyEvents s (handleCallback g c now ex r)) with h1 | h1
        · rcases handleCallback_stored g c now ex r s with h2 | h2
          · left
            rw [h1, h2]
          · right
            rw [h1]
            exact h2
        · right
          exact h1

/-- C4: a successfully settled authorization flow leaves the persisted
record with non-absent `accessToken` and `refreshToken` and with
`expiresAt` strictly greater than the invocation time `t0` (the callback
sets it to `now + expires_in*1000` with `now ≥ t0` and positive
`expires_in`). -/
theorem authFlow_roundtrip (g : String) (c : SpotifyConfig) (t0 now : Nat)
    (ex : String → Except String RawTokenData) (reqs : List CallbackRequest)
    (hinvoke : t0 ≤ now)
    (hok : (authFlowRun g c now ex reqs).settledOutcome = some (.ok ())) :
    (authFlowRun g c now ex reqs).stored.accessToken.isSome = true ∧
    (authFlowRun g c now ex reqs).stored.refreshToken.isSome = true ∧
    ∃ e, (authFlowRun g c now ex reqs).stored.expiresAt = some e ∧ t0 < e := by
  have h := (runRequests_spec g c now ex reqs
    { listenerClosed := false, settledOutcome := none, stored := c, settleEmits := 0 }
    rfl rfl rfl).2.2.2.2.1
  rw [authFlowRun] at hok ⊢
  obtain ⟨h1, h2, e, h3, h4⟩ := h hok
  exact ⟨h1, h2, e, h3, lt_of_le_of_lt hinvoke h4⟩

/-- Witness for C4: one valid callback with a matching state settles the
flow successfully and leaves a complete record. -/
theorem authFlow_roundtrip_witness :
    (authFlowRun "S"
        { clientId := "i", clientSecret := "s", redirectUri := "r",
          accessToken := none, refreshToken := none, expiresAt := none }
        5 (fun _ => .ok { access_token := "AT", refresh_token := "RT",
                          expires_in := some 3600 })
        [{ pathMatchesCallback := true, code := some "code", state := some "S",
           error := none }]).stored.accessToken.isSome = true := by
  exact (authFlow_roundtrip "S"
    { clientId := "i", clientSecret := "s", redirectUri := "r",
      accessToken := none, refreshToken := none, expiresAt := none }
    5 5
    (fun _ => .ok { access_token := "AT", refresh_token := "RT",
                    expires_in := some 3600 })
    [{ pathMatchesCallback := true, code := some "code", state := some "S",
       error := none }]
    (le_refl 5) rfl).1

/-- C5: within each callback-handler invocation every settle is preceded by
a listener close; across a whole run the flow settles at most once, it
settles (with the first matching callback's outcome) exactly when some
request hits the callback path, and whenever the flow has settled the
listener has been closed. -/
theorem authFlow_settles_once (g : String) (c : SpotifyConfig) (now : Nat)
    (ex : String → Except String RawTokenData) (reqs : List CallbackRequest) :
    (∀ req : CallbackRequest,
      settleAfterClose false (handleCallback g c now ex req) = true) ∧
    (authFlowRun g c now ex reqs).settleEmits ≤ 1 ∧
    ((authFlowRun g c now ex reqs).settleEmits = 1 ↔
      ∃ r ∈ reqs, r.pathMatchesCallback = true) ∧
    ((authFlowRun g c now ex reqs).settledOutcome.isSome = true ↔
      ∃ r ∈ reqs, r.pathMatchesCallback = true) ∧
    ((authFlowRun g c now ex reqs).settledOutcome.isSome = true →
      (authFlowRun g c now ex reqs).listenerClosed = true) := by
  have h := runRequests_spec g c now ex reqs
    { listenerClosed := false, settledOutcome := none, stored := c, settleEmits := 0 }
    rfl rfl rfl
  refine ⟨?_, h.1, h.2.1, h.2.2.1, h.2.2.2.1⟩
  intro req
  by_cases hmatch : req.pathMatchesCallback = true
  · by_cases herr : truthy req.error = true
    · simp [handleCallback, hmatch, herr, settleAfterClose]
    · by_cases hstate : req.state = some g
      · by_cases hcode : truthy req.code = true
        · cases hexch : exchangeCodeForToken (ex (req.code.getD "")) with
          | ok tokens =>
              simp [handleCallback, hmatch, herr, hstate, hcode, hexch,
                settleAfterClose]
          | error e =>
              simp [handleCallback, hmatch, herr, hstate, hcode, hexch,
                settleAfterClose]
        · simp [handleCallback, hmatch, herr, hstate, hcode, settleAfterClose]
      · simp [handleCallback, hmatch, herr, hstate, settleAfterClose]
  · simp [handleCallback, hmatch, settleAfterClose]

/-- Witness for C5: after one valid callback the flow has settled and the
listener is closed. -/
theorem authFlow_settles_once_witness :
    (authFlowRun "S"
        { clientId := "i", clientSecret := "s", redirectUri := "r",
          accessToken := none, refreshToken := none, expiresAt := none }
        5 (fun _ => .ok { access_token := "AT", refresh_token := "RT",
                          expires_in := some 3600 })
        [{ pathMatchesCallback := true, code := some "code", state := some "S",
           error := none }]).listenerClosed = true := by
  exact (authFlow_settles_once "S"
    { clientId := "i", clientSecret := "s", redirectUri := "r",
      accessToken := none, refreshToken := none, expiresAt := none }
    5
    (fun _ => .ok { access_token := "AT", refresh_token := "RT",
                    expires_in := some 3600 })
    [{ pathMatchesCallback := true, code := some "code", state := some "S",
       error := none }]).2.2.2.2 rfl

/-- C6: a callback-path request with no (truthy) `error` parameter and a
`state` different from the generated one settles the flow with
`StateMismatch`, closes the listener, emits no persist, and leaves the
credential record unchanged. -/
theorem authFlow_stateMismatch (g : String) (c : SpotifyConfig) (now : Nat)
    (ex : String → Except String RawTokenData) (req : CallbackRequest)
    (s : FlowRunState)
    (hmatch : req.pathMatchesCallback = true)
    (hnoerr : truthy req.error = false)
    (hstate : req.state ≠ some g)
    (hopen : s.listenerClosed = false) (hnone : s.settledOutcome = none) :
    (applyEvents s (handleCallback g c now ex req)).settledOutcome
      = some (.error .StateMismatch) ∧
    (applyEvents s (handleCallback g c now ex req)).listenerClosed = true ∧
    (applyEvents s (handleCallback g c now ex req)).stored = s.stored ∧
    ∀ rec, FlowEvent.persist rec ∉ handleCallback g c now ex req := by
  refine ⟨?_, ?_, ?_, ?_⟩ <;>
    simp [handleCallback, hmatch, hnoerr, hstate, applyEvents, applyEvent, hnone]

/-- Witness for C6: callback carrying `state=X` while the generated state is
`Y`. -/
theorem authFlow_stateMismatch_witness :
    (applyEvents
        { listenerClosed := false, settledOutcome := none,
          stored := { clientId := "i", clientSecret := "s", redirectUri := "r",
                      accessToken := none, refreshToken := none, expiresAt := none },
          settleEmits := 0 }
        (handleCallback "Y"
          { clientId := "i", clientSecret := "s", redirectUri := "r",
            accessToken := none, refreshToken := none, expiresAt := none }
          5 (fun _ => .error "unused")
          { pathMatchesCallback := true, code := some "c", state := some "X",
            error := none })).settledOutcome
      = some (.error .StateMismatch) := by
  exact (authFlow_stateMismatch "Y"
    { clientId := "i", clientSecret := "s", redirectUri := "r",
      accessToken := none, refreshToken := none, expiresAt := none }
    5 (fun _ => .error "unused")
    { pathMatchesCallback := true, code := some "c", state := some "X",
      error := none }
    { listenerClosed := false, settledOutcome := none,
      stored := { clientId := "i", clientSecret := "s", redirectUri := "r",
                  accessToken := none, refreshToken := none, expiresAt := none },
      settleEmits := 0 }
    rfl rfl (by simp) rfl rfl).1

/-- C9: the both-present-or-both-absent token-pair invariant of the
persisted record is preserved by any `getAccessToken` execution and by any
completed authorization-flow run. -/
theorem tokenPair_invariant (stored : SpotifyConfig) (cached : Option String)
    (now : Nat) (refresh : Except String RefreshResp)
    (g : String) (nowFlow : Nat) (ex : String → Except String RawTokenData)
    (reqs : List CallbackRequest)
    (hpair : stored.accessToken.isSome = stored.refreshToken.isSome) :
    ((getAccessToken stored cached now refresh).stored.accessToken.isSome
      = (getAccessToken stored cached now refresh).stored.refreshToken.isSome) ∧
    ((authFlowRun g stored nowFlow ex reqs).stored.accessToken.isSome
      = (authFlowRun g stored nowFlow ex reqs).stored.refreshToken.isSome) := by
  constructor
  · by_cases hG : (truthy stored.accessToken && truthy stored.refreshToken) = true
    · have hRs : stored.refreshToken.isSome = true := by
        cases hR : stored.refreshToken with
        | none => rw [hR] at hG; simp [truthy] at hG
        | some rt => rfl
      cases hE : stored.expiresAt with
      | none =>
          cases refresh with
          | ok tokens => simp [getAccessToken, hG, hE, hRs]
          | error e => simp [getAccessToken, hG, hE, hpair]
      | some e =>
          by_cases hle : e ≤ now
          · cases refresh with
            | ok tokens => simp [getAccessToken, hG, hE, hle, hRs]
            | error msg => simp [getAccessToken, hG, hE, hle, hpair]
          · simp [getAccessToken, hG, hE, hle, hpair]
    · simp [getAccessToken, hG, hpair]
  · rw [authFlowRun]
    rcases runRequests_stored g stored nowFlow ex reqs
      { listenerClosed := false, settledOutcome := none, stored := stored,
        settleEmits := 0 } with h | h
    · rw [h]
      exact hpair
    · rw [h.1, h.2]

/-- Witness for C9 at a record holding both tokens. -/
theorem tokenPair_invariant_witness :
    (getAccessToken
        { clientId := "i", clientSecret := "s", redirectUri := "r",
          accessToken := some "at", refreshToken := some "rt",
          expiresAt := none }
        none 5 (.ok { access_token := "AT2", expires_in := 60 })).stored.accessToken.isSome
      = (getAccessToken
        { clientId := "i", clientSecret := "s", redirectUri := "r",
          accessToken := some "at", refreshToken := some "rt",
          expiresAt := none }
        none 5 (.ok { access_token := "AT2", expires_in := 60 })).stored.refreshToken.isSome := by
  exact (tokenPair_invariant
    { clientId := "i", clientSecret := "s", redirectUri := "r",
      accessToken := some "at", refreshToken := some "rt", expiresAt := none }
    none 5 (.ok { access_token := "AT2", expires_in := 60 })
    "S" 0 (fun _ => .error "unused") [] rfl).1

end SpotifyMcp
